import Mathlib

/-!
Shallow embedding of the viewport transform engine of
`src/components/ui/Map.vue` (Vue single-file component).

Coordinates, zoom factors and wheel deltas are modelled as rationals
(exact arithmetic standing in for IEEE doubles; every operation the
component performs — `+`, `-`, `*`, `/`, `%`, `min`, `max` — is exact on
the inputs considered here).  JavaScript's `%` on numbers is the
truncated remainder; it is embedded below as `jsRem` via truncation
toward zero.
-/

/-- 2D point / vector of screen or world coordinates (`{x, y}` objects
in the component). -/
@[ext]
structure Vec2 where
  x : ℚ
  y : ℚ
deriving DecidableEq

/-- The component's props after `withDefaults` (Map.vue lines 11–29):
`cellSize = 32`, `bigCellSize = 160`, `minZoom = 0.25`, `maxZoom = 3`,
`initialZoom = 1`, `showHud = true`. -/
structure Config where
  cellSize : ℚ := 32
  bigCellSize : ℚ := 160
  minZoom : ℚ := 1/4
  maxZoom : ℚ := 3
  initialZoom : ℚ := 1
  showHud : Bool := true
deriving DecidableEq

/-- The component's mutable refs (Map.vue lines 33–38): `pan`, `zoom`,
`dragging`, `last`, `cursorStyle`. -/
@[ext]
structure MapState where
  pan : Vec2
  zoom : ℚ
  dragging : Bool
  last : Vec2
  cursorStyle : String
deriving DecidableEq

/-- State created at component setup (Map.vue lines 33–38):
`pan = ref({x: 0, y: 0})`, `zoom = ref(props.initialZoom)`,
`dragging = ref(false)`, `last = ref({x: 0, y: 0})`,
`cursorStyle = ref("cursor-default")`.  Note line 34 initialises `zoom`
from `props.initialZoom` directly, with no clamping and no validation
of the configuration. -/
def mkState (cfg : Config) : MapState where
  pan := ⟨0, 0⟩
  zoom := cfg.initialZoom
  dragging := false
  last := ⟨0, 0⟩
  cursorStyle := "cursor-default"

/-- Map.vue line 41: `const clamp = (v, a, b) => Math.max(a, Math.min(b, v))`. -/
def clamp (v a b : ℚ) : ℚ := max a (min b v)

/-- Truncation toward zero, the rounding JavaScript's `%` applies to the
quotient. -/
def jsTrunc (q : ℚ) : ℤ := if 0 ≤ q then ⌊q⌋ else ⌈q⌉

/-- JavaScript's `%` on numbers (truncated remainder):
`n % m = n - m * trunc(n / m)`. -/
def jsRem (n m : ℚ) : ℚ := n - m * (jsTrunc (n / m) : ℚ)

/-- Map.vue line 42: `const mod = (n, m) => ((n % m) + m) % m`. -/
def mod (n m : ℚ) : ℚ := jsRem (jsRem n m + m) m

/-- A pointer event's screen coordinates (`e.clientX`, `e.clientY`). -/
structure PointerEvent where
  clientX : ℚ
  clientY : ℚ
deriving DecidableEq

/-- Map.vue lines 44–49, `onPointerDown`: unconditionally sets
`dragging = true`, `cursorStyle = "cursor-move"`,
`last = {x: e.clientX, y: e.clientY}`.  (`setPointerCapture` has no
effect on the component's own state.) -/
def onPointerDown (e : PointerEvent) (s : MapState) : MapState :=
  { s with
      dragging := true
      cursorStyle := "cursor-move"
      last := ⟨e.clientX, e.clientY⟩ }

/-- The pan mutation on Map.vue line 56:
`pan.value = {x: pan.value.x + dx, y: pan.value.y + dy}` — the spec's
`applyPan(dx, dy)`. -/
def applyPan (dx dy : ℚ) (p : Vec2) : Vec2 := ⟨p.x + dx, p.y + dy⟩

/-- Map.vue lines 51–57, `onPointerMove`: early-returns when
`!dragging.value`; otherwise computes the delta from `last`, updates
`last`, and translates `pan` by the delta. -/
def onPointerMove (e : PointerEvent) (s : MapState) : MapState :=
  if s.dragging = false then s
  else
    let dx := e.clientX - s.last.x
    let dy := e.clientY - s.last.y
    { s with
        last := ⟨e.clientX, e.clientY⟩
        pan := applyPan dx dy s.pan }

/-- Map.vue lines 59–65, `onPointerUp` (also bound to `pointercancel`):
sets `dragging = false`, `cursorStyle = "cursor-default"`; the
`releasePointerCapture` call is wrapped in `try ... catch` with an empty
catch block.  This is the state part, with the external release effect
factored out (see `onPointerUpE`). -/
def onPointerUp (s : MapState) : MapState :=
  { s with
      dragging := false
      cursorStyle := "cursor-default" }

/-- The platform call `releasePointerCapture`, an external effect that
may raise a fault (e.g. capture already lost); the boolean says whether
this invocation raises. -/
def releasePointerCapture (raises : Bool) : Except Unit Unit :=
  if raises then Except.error () else Except.ok ()

/-- Map.vue lines 59–65, `onPointerUp`, with its release effect: the
state mutations run first, then `try releasePointerCapture catch`
with the empty catch block swallowing any fault.  The result is
`Except.error` only if the handler propagates an exception outward. -/
def onPointerUpE (raises : Bool) (s : MapState) : Except Unit MapState :=
  let s' := onPointerUp s
  match releasePointerCapture raises with
  | Except.ok _ => Except.ok s'
  | Except.error _ => Except.ok s'

/-- A wheel event: screen coordinates and signed vertical delta. -/
structure WheelEvent where
  clientX : ℚ
  clientY : ℚ
  deltaY : ℚ
deriving DecidableEq

/-- The viewport's bounding rectangle origin
(`viewportRef.value.getBoundingClientRect()`). -/
structure Rect where
  left : ℚ
  top : ℚ
deriving DecidableEq

/-- Map.vue line 77: `const factor = e.deltaY > 0 ? 0.9 : 1.1`. -/
def wheelFactor (e : WheelEvent) : ℚ := if e.deltaY > 0 then 9/10 else 11/10

/-- The zoom-at-point core of `onWheel` (Map.vue lines 76–87), the
spec's `applyZoomAt(screenPoint, factor)`:
`newZoom = clamp(oldZoom * factor, minZoom, maxZoom)`;
`world = (cursor - pan) / oldZoom`; `pan = cursor - world * newZoom`;
`zoom = newZoom`. -/
def applyZoomAt (cfg : Config) (cx cy factor : ℚ) (s : MapState) : MapState :=
  let oldZoom := s.zoom
  let newZoom := clamp (oldZoom * factor) cfg.minZoom cfg.maxZoom
  let worldX := (cx - s.pan.x) / oldZoom
  let worldY := (cy - s.pan.y) / oldZoom
  { s with
      pan := ⟨cx - worldX * newZoom, cy - worldY * newZoom⟩
      zoom := newZoom }

/-- Map.vue lines 68–88, `onWheel`: early-returns when
`viewportRef.value` is null; otherwise computes the cursor position
relative to the viewport's bounding rect and zooms at it with the
factor chosen from the sign of `deltaY`. -/
def onWheel (cfg : Config) (viewportRef : Option Rect) (e : WheelEvent)
    (s : MapState) : MapState :=
  match viewportRef with
  | none => s
  | some rect =>
      let cx := e.clientX - rect.left
      let cy := e.clientY - rect.top
      applyZoomAt cfg cx cy (wheelFactor e) s

/-- Processes a sequence of wheel events, in order, against a fixed
viewport rectangle. -/
def runWheels (cfg : Config) (viewportRef : Option Rect)
    (es : List WheelEvent) (s : MapState) : MapState :=
  es.foldl (fun t e => onWheel cfg viewportRef e t) s

/-- The six derived grid CSS variables (Map.vue lines 95–107), as
numbers: fine and coarse screen pitch and the four phase offsets. -/
structure GridVars where
  cellz : ℚ
  bigz : ℚ
  offx : ℚ
  offy : ℚ
  offxb : ℚ
  offyb : ℚ
deriving DecidableEq

/-- Map.vue lines 95–107, `cssVars`: `cellZ = cellSize * zoom`,
`bigZ = bigCellSize * zoom`, offsets `mod(pan.axis, pitch)` for both
axes and both tiers. -/
def cssVars (cfg : Config) (s : MapState) : GridVars where
  cellz := cfg.cellSize * s.zoom
  bigz := cfg.bigCellSize * s.zoom
  offx := mod s.pan.x (cfg.cellSize * s.zoom)
  offy := mod s.pan.y (cfg.cellSize * s.zoom)
  offxb := mod s.pan.x (cfg.bigCellSize * s.zoom)
  offyb := mod s.pan.y (cfg.bigCellSize * s.zoom)

/-- Concrete configuration with `initialZoom` outside `[minZoom, maxZoom]`
(all other props at their defaults). -/
def cfg3bad : Config := { initialZoom := 10 }

/-- Concrete invalid configuration: `minZoom > maxZoom` and a
non-positive `cellSize` (remaining props at their defaults). -/
def cfg8bad : Config := { cellSize := -3, minZoom := 5, maxZoom := 1, initialZoom := 7/10 }

/-! ## Helper lemmas -/

theorem jsRem_bounds_of_nonneg (n m : ℚ) (hm : 0 < m) (hn : 0 ≤ n) :
    0 ≤ jsRem n m ∧ jsRem n m < m := by
  have hq : 0 ≤ n / m := div_nonneg hn hm.le
  have hne : m ≠ 0 := ne_of_gt hm
  have h : jsRem n m = m * Int.fract (n / m) := by
    rw [jsRem, jsTrunc, if_pos hq, Int.fract]
    field_simp
  constructor
  · rw [h]
    exact mul_nonneg hm.le (Int.fract_nonneg _)
  · rw [h]
    calc m * Int.fract (n / m) < m * 1 :=
          mul_lt_mul_of_pos_left (Int.fract_lt_one _) hm
    _ = m := mul_one m

theorem jsRem_gt_neg (n m : ℚ) (hm : 0 < m) : -m < jsRem n m := by
  rcases le_or_lt 0 n with hn | hn
  · have h := (jsRem_bounds_of_nonneg n m hm hn).1
    linarith
  · have hq : n / m < 0 := div_neg_of_neg_of_pos hn hm
    have hnot : ¬ 0 ≤ n / m := not_le.mpr hq
    have h : jsRem n m = m * (n / m - (⌈n / m⌉ : ℚ)) := by
      rw [jsRem, jsTrunc, if_neg hnot]
      field_simp
    have h2 : -1 < n / m - (⌈n / m⌉ : ℚ) := by
      have := Int.ceil_lt_add_one (n / m)
      linarith
    rw [h]
    nlinarith

theorem mod_bounds (n m : ℚ) (hm : 0 < m) : 0 ≤ mod n m ∧ mod n m < m := by
  have h := jsRem_gt_neg n m hm
  have hge : 0 ≤ jsRem n m + m := by linarith
  simpa [mod] using jsRem_bounds_of_nonneg (jsRem n m + m) m hm hge

theorem clamp_mem (v a b : ℚ) (hab : a ≤ b) :
    a ≤ clamp v a b ∧ clamp v a b ≤ b := by
  constructor
  · exact le_max_left a _
  · rw [clamp]
    exact max_le hab (min_le_left _ _)

theorem runWheels_cons (cfg : Config) (v : Option Rect) (e : WheelEvent)
    (es : List WheelEvent) (s : MapState) :
    runWheels cfg v (e :: es) s = runWheels cfg v es (onWheel cfg v e s) := rfl

theorem onWheel_some_zoom (cfg : Config) (rect : Rect) (e : WheelEvent)
    (s : MapState) :
    (onWheel cfg (some rect) e s).zoom
      = clamp (s.zoom * wheelFactor e) cfg.minZoom cfg.maxZoom := rfl

theorem runWheels_zoom_bounds (cfg : Config) (rect : Rect)
    (hm : cfg.minZoom ≤ cfg.maxZoom) :
    ∀ (es : List WheelEvent) (s : MapState), es ≠ [] →
      cfg.minZoom ≤ (runWheels cfg (some rect) es s).zoom ∧
      (runWheels cfg (some rect) es s).zoom ≤ cfg.maxZoom := by
  intro es
  induction es with
  | nil => exact fun s h => absurd rfl h
  | cons e es ih =>
    intro s _
    by_cases hes : es = []
    · subst hes
      rw [runWheels_cons]
      rw [show runWheels cfg (some rect) [] (onWheel cfg (some rect) e s)
            = onWheel cfg (some rect) e s from rfl]
      rw [onWheel_some_zoom]
      exact clamp_mem _ _ _ hm
    · rw [runWheels_cons]
      exact ih (onWheel cfg (some rect) e s) hes


/-! ## Claim theorems -/

/-- C1: Zoom anchoring law. For any pre-state with `zoom > 0` and any
nonzero factor `f` such that `zoom * f` is not clamped
(`minZoom ≤ zoom * f ≤ maxZoom`), the world point corresponding to the
screen point `(px, py)` before `applyZoomAt` (i.e. `(p - pan) / oldZoom`)
equals the world point corresponding to it after
(`(p - pan') / newZoom`), on both axes. -/
theorem zoom_anchoring (cfg : Config) (s : MapState) (px py f : ℚ)
    (hz : 0 < s.zoom) (hf : f ≠ 0)
    (hlo : cfg.minZoom ≤ s.zoom * f) (hhi : s.zoom * f ≤ cfg.maxZoom) :
    (px - (applyZoomAt cfg px py f s).pan.x) / (applyZoomAt cfg px py f s).zoom
        = (px - s.pan.x) / s.zoom ∧
    (py - (applyZoomAt cfg px py f s).pan.y) / (applyZoomAt cfg px py f s).zoom
        = (py - s.pan.y) / s.zoom := by
  have hclamp : clamp (s.zoom * f) cfg.minZoom cfg.maxZoom = s.zoom * f := by
    rw [clamp, min_eq_right hhi, max_eq_right hlo]
  have hzne : s.zoom ≠ 0 := ne_of_gt hz
  have hnz : s.zoom * f ≠ 0 := mul_ne_zero hzne hf
  constructor <;>
  · simp only [applyZoomAt, hclamp]
    field_simp
    ring

/-- Witness for C1 at `pan = (0,0)`, `zoom = 1`, `p = (100, 100)`,
`f = 1.1` under the default configuration (spec's worked example). -/
theorem zoom_anchoring_witness :
    (100 - (applyZoomAt {} 100 100 (11/10) (mkState {})).pan.x)
        / (applyZoomAt {} 100 100 (11/10) (mkState {})).zoom
      = (100 - (mkState {}).pan.x) / (mkState {}).zoom ∧
    (100 - (applyZoomAt {} 100 100 (11/10) (mkState {})).pan.y)
        / (applyZoomAt {} 100 100 (11/10) (mkState {})).zoom
      = (100 - (mkState {}).pan.y) / (mkState {}).zoom :=
  zoom_anchoring {} (mkState {}) 100 100 (11/10)
    (by norm_num [mkState]) (by norm_num)
    (by norm_num [mkState]) (by norm_num [mkState])

/-- C2: Zoom bound invariant. For any valid bounds
(`minZoom ≤ maxZoom`), any starting state, any fixed viewport rect and
any sequence of wheel events, after every `onWheel` call (i.e. after
every nonempty prefix of the sequence) the zoom lies in
`[minZoom, maxZoom]`. -/
theorem zoom_bound_invariant (cfg : Config) (rect : Rect)
    (es : List WheelEvent) (s0 : MapState) (i : ℕ)
    (hm : cfg.minZoom ≤ cfg.maxZoom) (hi : i < es.length) :
    cfg.minZoom ≤ (runWheels cfg (some rect) (es.take (i+1)) s0).zoom ∧
    (runWheels cfg (some rect) (es.take (i+1)) s0).zoom ≤ cfg.maxZoom := by
  apply runWheels_zoom_bounds cfg rect hm
  intro h
  have hlen : (es.take (i+1)).length = 0 := by rw [h]; rfl
  rw [List.length_take] at hlen
  omega

/-- Witness for C2: one wheel event under the default configuration. -/
theorem zoom_bound_invariant_witness :
    ({} : Config).minZoom
        ≤ (runWheels {} (some ⟨0, 0⟩) ([⟨10, 20, 1⟩].take 1) (mkState {})).zoom ∧
    (runWheels {} (some ⟨0, 0⟩) ([⟨10, 20, 1⟩].take 1) (mkState {})).zoom
        ≤ ({} : Config).maxZoom :=
  zoom_bound_invariant {} ⟨0, 0⟩ [⟨10, 20, 1⟩] (mkState {}) 0
    (by norm_num) (by norm_num)

/-- C3 counterexample: with `initialZoom = 10` and default bounds
`[0.25, 3]`, the state created at mount has `zoom = 10`, which exceeds
`maxZoom` — line 34 of Map.vue performs no clamping. -/
theorem initial_zoom_not_clamped_cex :
    (mkState cfg3bad).zoom = 10 ∧ cfg3bad.minZoom = 1/4 ∧
    cfg3bad.maxZoom = 3 ∧ ¬ (mkState cfg3bad).zoom ≤ cfg3bad.maxZoom := by
  refine ⟨rfl, rfl, rfl, ?_⟩
  norm_num [mkState, cfg3bad]

/-- C3 amended: at widget mount the transform state is created with
`pan = (0, 0)` and `zoom` equal to `initialZoom` exactly as given,
without clamping (so the zoom bound can be violated when `initialZoom`
lies outside `[minZoom, maxZoom]`). -/
theorem initial_state_unclamped (cfg : Config) :
    mkState cfg = ⟨⟨0, 0⟩, cfg.initialZoom, false, ⟨0, 0⟩, "cursor-default"⟩ :=
  rfl

/-- C4: Grid phase normalization. For every pitch `P > 0` and every
`n` (including negatives), `0 ≤ mod n P < P`; the spec's example
`mod (-5) 32 = 27` holds; and `cssVars` applies this same `mod` rule on
both axes and both tiers, with fine pitch `cellSize * zoom` and coarse
pitch `bigCellSize * zoom`. -/
theorem grid_phase_normalization (cfg : Config) (s : MapState) (P n : ℚ)
    (hP : 0 < P) :
    (0 ≤ mod n P ∧ mod n P < P) ∧
    mod (-5) 32 = 27 ∧
    (cssVars cfg s).cellz = cfg.cellSize * s.zoom ∧
    (cssVars cfg s).bigz = cfg.bigCellSize * s.zoom ∧
    (cssVars cfg s).offx = mod s.pan.x (cfg.cellSize * s.zoom) ∧
    (cssVars cfg s).offy = mod s.pan.y (cfg.cellSize * s.zoom) ∧
    (cssVars cfg s).offxb = mod s.pan.x (cfg.bigCellSize * s.zoom) ∧
    (cssVars cfg s).offyb = mod s.pan.y (cfg.bigCellSize * s.zoom) := by
  refine ⟨mod_bounds n P hP, ?_, rfl, rfl, rfl, rfl, rfl, rfl⟩
  have h1 : jsTrunc ((-5 : ℚ) / 32) = 0 := by norm_num [jsTrunc]
  have h2 : jsRem (-5) 32 = -5 := by rw [jsRem, h1]; norm_num
  have h3 : jsTrunc (((-5 : ℚ) + 32) / 32) = 0 := by norm_num [jsTrunc]
  rw [mod, h2, jsRem, h3]
  norm_num

/-- Witness for C4 at `P = 32`, `n = -5`, the default configuration and
the initial state. -/
theorem grid_phase_normalization_witness :
    (0 ≤ mod (-5) 32 ∧ mod (-5) 32 < 32) ∧
    mod (-5) 32 = 27 ∧
    (cssVars {} (mkState {})).cellz = ({} : Config).cellSize * (mkState {}).zoom ∧
    (cssVars {} (mkState {})).bigz = ({} : Config).bigCellSize * (mkState {}).zoom ∧
    (cssVars {} (mkState {})).offx
        = mod (mkState {}).pan.x (({} : Config).cellSize * (mkState {}).zoom) ∧
    (cssVars {} (mkState {})).offy
        = mod (mkState {}).pan.y (({} : Config).cellSize * (mkState {}).zoom) ∧
    (cssVars {} (mkState {})).offxb
        = mod (mkState {}).pan.x (({} : Config).bigCellSize * (mkState {}).zoom) ∧
    (cssVars {} (mkState {})).offyb
        = mod (mkState {}).pan.y (({} : Config).bigCellSize * (mkState {}).zoom) :=
  grid_phase_normalization {} (mkState {}) 32 (-5) (by norm_num)

/-- C5: Clamp idempotence at the bounds. Under a valid configuration
(`0 < minZoom ≤ maxZoom`), a wheel zoom-in (`f > 1`) at a state already
at `zoom = maxZoom` leaves the whole state (pan and zoom) unchanged, and
every number of repetitions at the same point is a no-op; symmetrically
for `zoom = minZoom` with `0 < f < 1`. -/
theorem clamp_idempotence (cfg : Config) (s : MapState) (px py f : ℚ)
    (n : ℕ) (h0 : 0 < cfg.minZoom) (hm : cfg.minZoom ≤ cfg.maxZoom) :
    (s.zoom = cfg.maxZoom → 1 < f →
        applyZoomAt cfg px py f s = s ∧ (applyZoomAt cfg px py f)^[n] s = s) ∧
    (s.zoom = cfg.minZoom → 0 < f → f < 1 →
        applyZoomAt cfg px py f s = s ∧ (applyZoomAt cfg px py f)^[n] s = s) := by
  constructor
  · intro hz hf
    have hzpos : (0 : ℚ) < s.zoom := by
      rw [hz]; exact lt_of_lt_of_le h0 hm
    have hzne : s.zoom ≠ 0 := ne_of_gt hzpos
    have hclamp : clamp (s.zoom * f) cfg.minZoom cfg.maxZoom = s.zoom := by
      have hlt : cfg.maxZoom ≤ s.zoom * f := by nlinarith
      rw [clamp, min_eq_left hlt, max_eq_right hm, hz]
    have hfix : applyZoomAt cfg px py f s = s := by
      simp only [applyZoomAt, hclamp]
      ext <;> simp <;> field_simp
    exact ⟨hfix, Function.iterate_fixed hfix n⟩
  · intro hz hf0 hf1
    have hzpos : (0 : ℚ) < s.zoom := by rw [hz]; exact h0
    have hzne : s.zoom ≠ 0 := ne_of_gt hzpos
    have hclamp : clamp (s.zoom * f) cfg.minZoom cfg.maxZoom = s.zoom := by
      have hlt : s.zoom * f ≤ cfg.maxZoom := by nlinarith
      have hge : cfg.minZoom ≤ cfg.minZoom ⊔ s.zoom * f := le_max_left _ _
      rw [clamp, min_eq_right hlt]
      have : s.zoom * f ≤ cfg.minZoom := by nlinarith
      rw [max_eq_left this, hz]
    have hfix : applyZoomAt cfg px py f s = s := by
      simp only [applyZoomAt, hclamp]
      ext <;> simp <;> field_simp
    exact ⟨hfix, Function.iterate_fixed hfix n⟩

/-- Witness for C5: default configuration, a state at `zoom = maxZoom = 3`
with pan `(7, -2)`, zoom-in factor `1.1`, five repetitions (the
symmetric min-bound conjunct instantiated at the same state holds
vacuously). -/
theorem clamp_idempotence_witness :
    ((⟨⟨7, -2⟩, 3, false, ⟨0, 0⟩, "cursor-default"⟩ : MapState).zoom
          = ({} : Config).maxZoom → 1 < (11/10 : ℚ) →
        applyZoomAt {} 40 50 (11/10) ⟨⟨7, -2⟩, 3, false, ⟨0, 0⟩, "cursor-default"⟩
            = ⟨⟨7, -2⟩, 3, false, ⟨0, 0⟩, "cursor-default"⟩ ∧
        (applyZoomAt {} 40 50 (11/10))^[5]
            ⟨⟨7, -2⟩, 3, false, ⟨0, 0⟩, "cursor-default"⟩
            = ⟨⟨7, -2⟩, 3, false, ⟨0, 0⟩, "cursor-default"⟩) ∧
    ((⟨⟨7, -2⟩, 3, false, ⟨0, 0⟩, "cursor-default"⟩ : MapState).zoom
          = ({} : Config).minZoom → 0 < (11/10 : ℚ) → (11/10 : ℚ) < 1 →
        applyZoomAt {} 40 50 (11/10) ⟨⟨7, -2⟩, 3, false, ⟨0, 0⟩, "cursor-default"⟩
            = ⟨⟨7, -2⟩, 3, false, ⟨0, 0⟩, "cursor-default"⟩ ∧
        (applyZoomAt {} 40 50 (11/10))^[5]
            ⟨⟨7, -2⟩, 3, false, ⟨0, 0⟩, "cursor-default"⟩
            = ⟨⟨7, -2⟩, 3, false, ⟨0, 0⟩, "cursor-default"⟩) :=
  clamp_idempotence {} ⟨⟨7, -2⟩, 3, false, ⟨0, 0⟩, "cursor-default"⟩ 40 50
    (11/10) 5 (by norm_num) (by norm_num)

/-- C6: Drag round-trip and gesture state machine. From any state,
pointer-down at `(50, 50)` then pointer-move to `(70, 65)` then
pointer-up changes pan by exactly `(+20, +15)`, applied once; and a
pointer-move received while not dragging (no prior pointer-down, as in
`s`, or after a pointer-up, as in `onPointerUp t`) changes no state at
all — pan, `last` and `dragging` included. -/
theorem drag_round_trip (s t : MapState) (p : PointerEvent)
    (h : s.dragging = false) :
    (onPointerUp (onPointerMove ⟨70, 65⟩ (onPointerDown ⟨50, 50⟩ s))).pan
        = ⟨s.pan.x + 20, s.pan.y + 15⟩ ∧
    onPointerMove p s = s ∧
    onPointerMove p (onPointerUp t) = onPointerUp t := by
  refine ⟨?_, ?_, ?_⟩
  · simp only [onPointerDown, onPointerMove, onPointerUp, applyPan]
    norm_num
  · simp [onPointerMove, h]
  · simp [onPointerMove, onPointerUp]

/-- Witness for C6: the idle initial state under the default
configuration, with a stray move to `(99, 99)`. -/
theorem drag_round_trip_witness :
    (onPointerUp (onPointerMove ⟨70, 65⟩ (onPointerDown ⟨50, 50⟩ (mkState {})))).pan
        = ⟨(mkState {}).pan.x + 20, (mkState {}).pan.y + 15⟩ ∧
    onPointerMove ⟨99, 99⟩ (mkState {}) = mkState {} ∧
    onPointerMove ⟨99, 99⟩ (onPointerUp (mkState {}))
        = onPointerUp (mkState {}) :=
  drag_round_trip (mkState {}) (mkState {}) ⟨99, 99⟩ rfl

/-- C7: Pan is unbounded and additive. `applyPan` is a total function on
all rational deltas (no clamping anywhere in its definition), and
panning by `(dx1, dy1)` then `(dx2, dy2)` equals panning once by
`(dx1 + dx2, dy1 + dy2)`. -/
theorem pan_unbounded_additive (p : Vec2) (dx1 dy1 dx2 dy2 : ℚ) :
    applyPan dx2 dy2 (applyPan dx1 dy1 p)
        = applyPan (dx1 + dx2) (dy1 + dy2) p := by
  simp only [applyPan]
  ext <;> dsimp <;> ring

/-- C8 counterexample: the invalid configuration `cfg8bad`
(`minZoom = 5 > 1 = maxZoom`, `cellSize = -3 ≤ 0`) is not rejected:
widget setup succeeds and produces the ordinary initial state, and the
runtime keeps operating on it — a wheel event yields
`zoom = 5 > maxZoom`, silently. There is no fail-fast path in the code. -/
theorem no_fail_fast_cex :
    cfg8bad.maxZoom < cfg8bad.minZoom ∧ cfg8bad.cellSize ≤ 0 ∧
    mkState cfg8bad = ⟨⟨0, 0⟩, 7/10, false, ⟨0, 0⟩, "cursor-default"⟩ ∧
    (onWheel cfg8bad (some ⟨0, 0⟩) ⟨0, 0, -1⟩ (mkState cfg8bad)).zoom = 5 ∧
    cfg8bad.maxZoom
        < (onWheel cfg8bad (some ⟨0, 0⟩) ⟨0, 0, -1⟩ (mkState cfg8bad)).zoom := by
  have hz : (onWheel cfg8bad (some ⟨0, 0⟩) ⟨0, 0, -1⟩ (mkState cfg8bad)).zoom
      = 5 := by
    rw [onWheel_some_zoom]
    norm_num [wheelFactor, clamp, mkState, cfg8bad, min_def, max_def]
  refine ⟨by norm_num [cfg8bad], by norm_num [cfg8bad], rfl, hz, ?_⟩
  rw [hz]
  norm_num [cfg8bad]

/-- C8 amended: the code performs no configuration validation at setup:
construction always succeeds, reads only `initialZoom`, and in
particular never inspects `minZoom`, `maxZoom`, `cellSize` or
`bigCellSize` — invalid configurations are silently tolerated. -/
theorem construction_ignores_validity (cfg cfg' : Config)
    (h : cfg.initialZoom = cfg'.initialZoom) :
    mkState cfg = mkState cfg' := by
  simp [mkState, h]

/-- Witness for C8 amended: the invalid `cfg8bad` constructs the same
state as a default-bounds configuration with the same `initialZoom`. -/
theorem construction_ignores_validity_witness :
    mkState cfg8bad = mkState { initialZoom := 7/10 } :=
  construction_ignores_validity cfg8bad { initialZoom := 7/10 } rfl

/-- C9: release-fault swallowing. For every state and whether or not
`releasePointerCapture` raises, the pointer-up/pointer-cancel handler
completes normally (never propagates the fault) and the resulting state
has `dragging = false`. -/
theorem release_fault_swallowed (s : MapState) (raises : Bool) :
    onPointerUpE raises s = Except.ok (onPointerUp s) ∧
    (onPointerUp s).dragging = false := by
  refine ⟨?_, rfl⟩
  cases raises <;> rfl

/-- C10: pointer-down while already dragging keeps `dragging = true`,
overwrites `last` with the new pointer position, leaves pan and zoom
unchanged, and the next pointer-move's delta is measured from this most
recent pointer-down position. -/
theorem pointer_down_while_dragging (s : MapState) (e e2 : PointerEvent)
    (h : s.dragging = true) :
    (onPointerDown e s).dragging = true ∧
    (onPointerDown e s).last = ⟨e.clientX, e.clientY⟩ ∧
    (onPointerDown e s).pan = s.pan ∧
    (onPointerDown e s).zoom = s.zoom ∧
    (onPointerMove e2 (onPointerDown e s)).pan
        = ⟨s.pan.x + (e2.clientX - e.clientX),
           s.pan.y + (e2.clientY - e.clientY)⟩ := by
  refine ⟨rfl, rfl, rfl, rfl, ?_⟩
  simp [onPointerMove, onPointerDown, applyPan]

/-- Witness for C10: a mid-drag state with `last = (10, 10)`, a second
pointer-down at `(30, 40)`, then a move to `(33, 44)`. -/
theorem pointer_down_while_dragging_witness :
    (onPointerDown ⟨30, 40⟩ ⟨⟨1, 2⟩, 1, true, ⟨10, 10⟩, "cursor-move"⟩).dragging
        = true ∧
    (onPointerDown ⟨30, 40⟩ ⟨⟨1, 2⟩, 1, true, ⟨10, 10⟩, "cursor-move"⟩).last
        = ⟨30, 40⟩ ∧
    (onPointerDown ⟨30, 40⟩ ⟨⟨1, 2⟩, 1, true, ⟨10, 10⟩, "cursor-move"⟩).pan
        = (⟨⟨1, 2⟩, 1, true, ⟨10, 10⟩, "cursor-move"⟩ : MapState).pan ∧
    (onPointerDown ⟨30, 40⟩ ⟨⟨1, 2⟩, 1, true, ⟨10, 10⟩, "cursor-move"⟩).zoom
        = (⟨⟨1, 2⟩, 1, true, ⟨10, 10⟩, "cursor-move"⟩ : MapState).zoom ∧
    (onPointerMove ⟨33, 44⟩
        (onPointerDown ⟨30, 40⟩ ⟨⟨1, 2⟩, 1, true, ⟨10, 10⟩, "cursor-move"⟩)).pan
        = ⟨(⟨⟨1, 2⟩, 1, true, ⟨10, 10⟩, "cursor-move"⟩ : MapState).pan.x + (33 - 30),
           (⟨⟨1, 2⟩, 1, true, ⟨10, 10⟩, "cursor-move"⟩ : MapState).pan.y + (44 - 40)⟩ :=
  pointer_down_while_dragging ⟨⟨1, 2⟩, 1, true, ⟨10, 10⟩, "cursor-move"⟩
    ⟨30, 40⟩ ⟨33, 44⟩ rfl
